import Mathlib

/-!
Verification development for the AI health & fitness planner
(`health_agent.py`, latest variant at the repository root; the older
variant under `advanced_ai_agents/.../health_agent.py` shares the same
plan-generation and follow-up logic).

The Streamlit session state, the plan-generation button handler, the
follow-up question handler, the API-key resolution and the
OpenAI-compatible model construction are embedded as pure Lean
functions; the two external model calls are inputs (an outcome is
either a raised exception carrying its message, or a returned response
object).
-/

namespace HealthAgent

/-- A value returned by `Agent.run`.  In the Python source a response can be
`None` (falsy), an object lacking a `content` attribute, or an object whose
`content` attribute holds the generated text (possibly the empty string). -/
inductive RunResponse where
  | null
  | noContent
  | content (s : String)
deriving DecidableEq, Repr

/-- One external call to `Agent.run`: it either raises an exception with a
message, or returns a `RunResponse`. -/
inductive RunOutcome where
  | raises (msg : String)
  | returns (r : RunResponse)
deriving DecidableEq, Repr

/-- `hasattr(r, "content")` yields the content; `None` and attribute-less
objects yield `none`.  A response object carrying `content` is truthy in
Python (no `__bool__` is defined), so `not r or not hasattr(r, "content")`
fails exactly when this function returns `none`. -/
def respContent : RunResponse → Option String
  | .content s => some s
  | _ => none

/-- `st.session_state` as initialised in `main` (lines 204-208): the two plan
dictionaries, the question/answer history and the generated flag.  The Python
dictionaries have string keys and string values and are embedded as
association lists. -/
structure SessionState where
  dietary_plan : List (String × String)
  fitness_plan : List (String × String)
  qa_pairs : List (String × String)
  plans_generated : Bool
deriving DecidableEq, Repr

/-- The state set up on first visit: empty dicts, empty history, no plans. -/
def initialState : SessionState :=
  { dietary_plan := [], fitness_plan := [], qa_pairs := [], plans_generated := false }

/-- `dict.get(key, default)` on the association-list embedding of a dict. -/
def dictGet (d : List (String × String)) (key dflt : String) : String :=
  match d.find? (fun p => p.1 == key) with
  | some p => p.2
  | none => dflt

/-- The constant `why_this_plan_works` boilerplate of the dietary plan. -/
def whyThisPlanWorksText : String := "高蛋白、健康脂肪、适量碳水化合物和热量平衡"

/-- The constant `important_considerations` boilerplate (the Python triple-quoted
string, leading newline and 20-space indentation included). -/
def importantConsiderationsText : String :=
  "\n                    - 补水：全天多喝水\n                    - 电解质：监测钠、钾和镁的水平\n                    - 纤维：通过蔬菜和水果确保摄入足量\n                    - 倾听身体的声音：根据需要调整份量\n                    "

/-- The constant `goals` boilerplate of the fitness plan. -/
def fitnessGoalsText : String := "增强力量、提高耐力并保持整体健康"

/-- The constant `tips` boilerplate of the fitness plan. -/
def fitnessTipsText : String :=
  "\n                    - 定期跟踪您的进展\n                    - 锻炼之间保证适当的休息\n                    - 注重正确的姿势\n                    - 坚持您的日常锻炼\n                    "

/-- The `dietary_plan` dict literal built on success (lines 429-438). -/
def mkDietaryPlan (mealPlanContent : String) : List (String × String) :=
  [("why_this_plan_works", whyThisPlanWorksText),
   ("meal_plan", mealPlanContent),
   ("important_considerations", importantConsiderationsText)]

/-- The `fitness_plan` dict literal built on success (lines 449-458). -/
def mkFitnessPlan (routineContent : String) : List (String × String) :=
  [("goals", fitnessGoalsText),
   ("routine", routineContent),
   ("tips", fitnessTipsText)]

/-- Exception message raised when the dietary response is falsy or lacks
`content` (line 427). -/
def dietaryFailMsg : String := "饮食计划生成失败，API 响应为空"

/-- Exception message raised when the fitness response is falsy or lacks
`content` (line 447). -/
def fitnessFailMsg : String := "健身计划生成失败，API 响应为空"

/-- The plan-generation button handler (lines 378-532).  The dietary call runs
first; a raised exception or invalid response is caught by the surrounding
`except`, which displays the message and leaves `st.session_state` untouched.
Only when both responses carry `content` are the two dicts stored,
`plans_generated` set, and `qa_pairs` cleared.  Returns the new session state
and the displayed error message, if any. -/
def generatePlans (s : SessionState) (dietaryOutcome fitnessOutcome : RunOutcome) :
    SessionState × Option String :=
  match dietaryOutcome with
  | .raises msg => (s, some msg)
  | .returns rd =>
    match respContent rd with
    | none => (s, some dietaryFailMsg)
    | some dc =>
      match fitnessOutcome with
      | .raises msg => (s, some msg)
      | .returns rf =>
        match respContent rf with
        | none => (s, some fitnessFailMsg)
        | some fc =>
          ({ dietary_plan := mkDietaryPlan dc,
             fitness_plan := mkFitnessPlan fc,
             plans_generated := true,
             qa_pairs := [] }, none)

/-- Fallback answer used in the follow-up path when the response lacks a
`content` attribute (line 557). -/
def followUpFallbackAnswer : String := "抱歉，目前无法生成回应。"

/-- The follow-up question section (lines 534-561).  It renders only when
`plans_generated` is true; the handler runs only when the button is pressed
and the question string is truthy (non-empty).  Unlike plan generation, a
response without `content` does not raise: the fallback answer is appended.
Returns the new state, whether a model call was made, and the displayed
error message, if any. -/
def followUp (s : SessionState) (buttonPressed : Bool) (question : String)
    (outcome : RunOutcome) : SessionState × Bool × Option String :=
  if s.plans_generated then
    if buttonPressed then
      if question = "" then (s, false, none)
      else
        match outcome with
        | .raises msg => (s, true, some ("❌ 获取答案时发生错误: " ++ msg))
        | .returns r =>
          let answer := match respContent r with
            | some a => a
            | none => followUpFallbackAnswer
          ({ s with qa_pairs := s.qa_pairs ++ [(question, answer)] }, true, none)
    else (s, false, none)
  else (s, false, none)

/-- The sources an API key can come from at module load (lines 20-32):
`st.secrets["api_keys"]["API_KEY"]` (a missing entry raises
`KeyError`/`FileNotFoundError`, modelled as `none`), and the environment
variables `API_KEY` and `OPENAI_API_KEY` (`os.getenv` returns `None` when
unset). -/
structure KeyEnv where
  secrets : Option String
  envAPI : Option String
  envOPENAI : Option String
deriving DecidableEq, Repr

/-- Python `a or b` on optional strings: `a` when it is a set, non-empty
string, otherwise `b` (`None` and `""` are falsy). -/
def pyOr (a b : Option String) : Option String :=
  match a with
  | some v => if v = "" then b else some v
  | none => b

/-- The module-level `api_key` (lines 21-32): the secrets file is consulted
first; only when its lookup raises does the code fall back to
`os.getenv("API_KEY") or os.getenv("OPENAI_API_KEY")`. -/
def resolveApiKey (e : KeyEnv) : Option String :=
  match e.secrets with
  | some k => some k
  | none => pyOr e.envAPI e.envOPENAI

/-- `api_key_to_use` in `main` (lines 244-252): with `args.type == 1` (the
default) the module-level key is used and the sidebar never renders; any
other type uses the sidebar value exclusively. -/
def apiKeyToUse (argsType : Int) (e : KeyEnv) (sidebarKey : Option String) :
    Option String :=
  if argsType = 1 then resolveApiKey e else sidebarKey

/-- `clean_base_url` (lines 273-276): strip surrounding whitespace, delete
every `@`, then append `/` unless the result already ends in `/`. -/
def clean_base_url (base_url : String) : String :=
  let cleaned := (base_url.trim).replace "@" ""
  if cleaned.endsWith "/" then cleaned else cleaned ++ "/"

/-- The `OpenAIChat(...)` constructor call (lines 279-285).  The source passes
`temperature=0.7`; it is recorded in tenths to keep the embedding exact over
the rationals. -/
structure OpenAIChat where
  id : String
  api_key : Option String
  base_url : String
  max_tokens : Nat
  temperature_tenths : Nat
deriving DecidableEq, Repr

/-- The `Gemini(...)` constructor call (line 262). -/
structure Gemini where
  id : String
  api_key : Option String
deriving DecidableEq, Repr

/-- How `main` builds the OpenAI-compatible backend client (lines 273-285). -/
def mkOpenAIChat (model_name : String) (api_key_to_use : Option String)
    (base_url : String) : OpenAIChat :=
  { id := model_name,
    api_key := api_key_to_use,
    base_url := clean_base_url base_url,
    max_tokens := 2000,
    temperature_tenths := 7 }

/-- The backend client `model` selected in `main`. -/
inductive BackendModel where
  | gemini (m : Gemini)
  | openai (m : OpenAIChat)
deriving DecidableEq, Repr

/-- Model initialisation (lines 258-286): `model` starts as `None` and is set
only for the two recognised provider names. -/
def buildModel (model_provider model_name : String) (api_key_to_use : Option String)
    (base_url : String) : Option BackendModel :=
  if model_provider = "Gemini" then
    some (.gemini { id := model_name, api_key := api_key_to_use })
  else if model_provider = "OpenAI" then
    some (.openai (mkOpenAIChat model_name api_key_to_use base_url))
  else none

/-- A numeric form field; Streamlit `number_input` bounds and step, recorded
in tenths so the `.0`/`.1` float literals of the source embed exactly. -/
structure NumberField where
  min_tenths : Nat
  max_tenths : Nat
  step_tenths : Nat
deriving DecidableEq, Repr

/-- The profile form rendered by `main` (lines 347-376): widget bounds and
option lists.  The form is outside every provider branch. -/
structure ProfileForm where
  age : NumberField
  height : NumberField
  weight : NumberField
  activity_options : List String
  diet_options : List String
  sex_options : List String
  goal_options : List String
deriving DecidableEq, Repr

/-- The concrete profile form of the latest variant (lines 347-376). -/
def profileForm : ProfileForm :=
  { age := { min_tenths := 180, max_tenths := 1000, step_tenths := 10 },
    height := { min_tenths := 1500, max_tenths := 2500, step_tenths := 1 },
    weight := { min_tenths := 300, max_tenths := 3000, step_tenths := 1 },
    activity_options := ["久坐", "轻度活跃", "中度活跃", "非常活跃", "极度活跃", "不运动"],
    diet_options := ["素食", "荤素搭配", "生酮", "无麸质", "低碳水", "无乳制品"],
    sex_options := ["女性", "男性", "其他"],
    goal_options := ["减肥", "增肌", "耐力", "保持健康", "力量训练", "塑形"] }

/-- The values read from the profile form widgets. -/
structure UserProfile where
  age : Nat
  weight_tenths : Nat
  height_tenths : Nat
  sex : String
  activity_level : String
  dietary_preferences : String
  fitness_goals : String
deriving DecidableEq, Repr

/-- The inputs of one rendering of `main` up to the generation handler:
provider configuration, the profile, and the two model-call outcomes. -/
structure GenRun where
  model_provider : String
  model_name : String
  api_key : Option String
  base_url : String
  profile : UserProfile
  dietaryOutcome : RunOutcome
  fitnessOutcome : RunOutcome
deriving DecidableEq, Repr

/-- One pass of `main` through model construction, profile form rendering and
the generation handler: the form spec does not depend on the provider (the
widgets are declared outside the provider branches), and the handler consults
the backend only through the two `Agent.run` outcomes, which are inputs. -/
def runGeneration (r : GenRun) (s : SessionState) :
    ProfileForm × Option BackendModel × (SessionState × Option String) :=
  (profileForm,
   buildModel r.model_provider r.model_name r.api_key r.base_url,
   generatePlans s r.dietaryOutcome r.fitnessOutcome)

/-- Definition written from the spec's words for the URL-normalization claim:
the input with surrounding whitespace stripped and every `@` removed, ending
in exactly one appended `/` if it did not already end in `/`. -/
def normalizedUrlSpec (u : String) : String :=
  let stripped := u.trim
  let noAt := stripped.replace "@" ""
  if noAt.endsWith "/" then noAt else noAt ++ "/"

/-- A session state in which plans have been generated, used to exercise the
follow-up path. -/
def sampleGeneratedState : SessionState :=
  { dietary_plan := mkDietaryPlan "膳食内容",
    fitness_plan := mkFitnessPlan "锻炼内容",
    qa_pairs := [],
    plans_generated := true }

/-- A sample profile for concrete runs. -/
def sampleProfile : UserProfile :=
  { age := 30, weight_tenths := 700, height_tenths := 1750, sex := "男性",
    activity_level := "中度活跃", dietary_preferences := "无麸质",
    fitness_goals := "增肌" }

/-- A concrete Gemini-provider run. -/
def geminiRun : GenRun :=
  { model_provider := "Gemini", model_name := "gemini-1.5-pro",
    api_key := some "sk-key", base_url := "https://api.openai.com/v1",
    profile := sampleProfile,
    dietaryOutcome := .returns (.content "膳食内容"),
    fitnessOutcome := .returns (.content "锻炼内容") }

/-- The same run with only the provider switched to OpenAI. -/
def openaiRun : GenRun :=
  { geminiRun with model_provider := "OpenAI" }

/- ## Claims -/

/-- C1 counterexample: a response object whose `content` attribute is the
empty string passes the `not response or not hasattr(response, "content")`
check, so generation completes with no error while the rendered `meal_plan`
and `routine` panel texts are empty — a silent empty completion. -/
theorem generate_empty_content_stored_silently :
    (generatePlans initialState (.returns (.content "")) (.returns (.content ""))).2 = none ∧
    dictGet (generatePlans initialState (.returns (.content ""))
      (.returns (.content ""))).1.dietary_plan "meal_plan" "计划不可用" = "" ∧
    dictGet (generatePlans initialState (.returns (.content ""))
      (.returns (.content ""))).1.fitness_plan "routine" "日程不可用" = "" :=
  ⟨rfl, rfl, rfl⟩

/-- C1 (amended): when plan generation completes without a visible error,
both model calls returned content-bearing responses and the rendered
`meal_plan` and `routine` panel texts are exactly those contents — non-empty
whenever the model content is non-empty, but stored silently even when a
content string is empty. -/
theorem generate_success_stores_model_content (s : SessionState)
    (d f : RunOutcome) (h : (generatePlans s d f).2 = none) :
    ∃ dc fc, d = .returns (.content dc) ∧ f = .returns (.content fc) ∧
      dictGet (generatePlans s d f).1.dietary_plan "meal_plan" "计划不可用" = dc ∧
      dictGet (generatePlans s d f).1.fitness_plan "routine" "日程不可用" = fc := by
  cases d with
  | raises m => simp [generatePlans] at h
  | returns rd =>
    cases rd with
    | null => simp [generatePlans, respContent] at h
    | noContent => simp [generatePlans, respContent] at h
    | content dc =>
      cases f with
      | raises m => simp [generatePlans, respContent] at h
      | returns rf =>
        cases rf with
        | null => simp [generatePlans, respContent] at h
        | noContent => simp [generatePlans, respContent] at h
        | content fc => exact ⟨dc, fc, rfl, rfl, rfl, rfl⟩

/-- Witness for C1 (amended) at a concrete successful run. -/
theorem generate_success_stores_model_content_witness :
    (generatePlans initialState (.returns (.content "早餐燕麦"))
      (.returns (.content "深蹲三组"))).2 = none ∧
    ∃ dc fc,
      RunOutcome.returns (.content "早餐燕麦") = .returns (.content dc) ∧
      RunOutcome.returns (.content "深蹲三组") = .returns (.content fc) ∧
      dictGet (generatePlans initialState (.returns (.content "早餐燕麦"))
        (.returns (.content "深蹲三组"))).1.dietary_plan "meal_plan" "计划不可用" = dc ∧
      dictGet (generatePlans initialState (.returns (.content "早餐燕麦"))
        (.returns (.content "深蹲三组"))).1.fitness_plan "routine" "日程不可用" = fc :=
  ⟨rfl, generate_success_stores_model_content initialState _ _ rfl⟩

/-- C2: whenever any step of plan generation fails (either call raises, or
returns a falsy response, or returns a response without `content`), an error
is shown and the whole session state — dietary_plan, fitness_plan,
plans_generated, qa_pairs — is exactly what it was before the action. -/
theorem generate_failure_preserves_state (s : SessionState)
    (d f : RunOutcome) (h : (generatePlans s d f).2 ≠ none) :
    (generatePlans s d f).1 = s := by
  cases d with
  | raises m => rfl
  | returns rd =>
    cases rd with
    | null => rfl
    | noContent => rfl
    | content dc =>
      cases f with
      | raises m => rfl
      | returns rf =>
        cases rf with
        | null => rfl
        | noContent => rfl
        | content fc => simp [generatePlans, respContent] at h

/-- Witness for C2: a raising dietary call leaves the state untouched. -/
theorem generate_failure_preserves_state_witness :
    (generatePlans sampleGeneratedState (.raises "连接超时")
      (.returns (.content "x"))).2 ≠ none ∧
    (generatePlans sampleGeneratedState (.raises "连接超时")
      (.returns (.content "x"))).1 = sampleGeneratedState :=
  ⟨by simp [generatePlans],
   generate_failure_preserves_state sampleGeneratedState _ _ (by simp [generatePlans])⟩

/-- C3: whenever plan generation completes successfully, the stored
`qa_pairs` history is reset to the empty list in the same action. -/
theorem generate_success_clears_qa (s : SessionState) (d f : RunOutcome)
    (h : (generatePlans s d f).2 = none) :
    (generatePlans s d f).1.qa_pairs = [] := by
  cases d with
  | raises m => simp [generatePlans] at h
  | returns rd =>
    cases rd with
    | null => simp [generatePlans, respContent] at h
    | noContent => simp [generatePlans, respContent] at h
    | content dc =>
      cases f with
      | raises m => simp [generatePlans, respContent] at h
      | returns rf =>
        cases rf with
        | null => simp [generatePlans, respContent] at h
        | noContent => simp [generatePlans, respContent] at h
        | content fc => rfl

/-- Witness for C3: a state with prior history loses it on regeneration. -/
theorem generate_success_clears_qa_witness :
    (generatePlans { sampleGeneratedState with qa_pairs := [("问", "答")] }
      (.returns (.content "新膳食")) (.returns (.content "新锻炼"))).2 = none ∧
    (generatePlans { sampleGeneratedState with qa_pairs := [("问", "答")] }
      (.returns (.content "新膳食")) (.returns (.content "新锻炼"))).1.qa_pairs = [] :=
  ⟨rfl, generate_success_clears_qa _ _ _ rfl⟩

/-- C4: while `plans_generated` is false the follow-up section is not
rendered, so no follow-up model call is made and `qa_pairs` is never
appended to; the whole state is unchanged. -/
theorem followup_unreachable_without_plans (s : SessionState) (pressed : Bool)
    (q : String) (o : RunOutcome) (h : s.plans_generated = false) :
    followUp s pressed q o = (s, false, none) := by
  simp [followUp, h]

/-- Witness for C4 at the initial state. -/
theorem followup_unreachable_without_plans_witness :
    initialState.plans_generated = false ∧
    followUp initialState true "我该吃什么？" (.returns (.content "答案")) =
      (initialState, false, none) :=
  ⟨rfl, followup_unreachable_without_plans initialState true "我该吃什么？" _ rfl⟩

/-- An environment with an API key supplied by all three sources: the
secrets file, the environment, and (counterfactually) the sidebar. -/
def fullKeyEnv : KeyEnv :=
  { secrets := some "sk-secrets",
    envAPI := some "sk-env",
    envOPENAI := some "sk-env2" }

/-- An environment whose secrets file supplies "sk-a" while the environment
supplies "sk-b". -/
def secretsKeyEnv : KeyEnv :=
  { secrets := some "sk-a",
    envAPI := some "sk-b",
    envOPENAI := none }

/-- C5 counterexample: with a key in all three sources, the secrets-file
value is used — both in `resolveApiKey` and under the default `--type 1`
startup even when a sidebar value exists — refuting the claimed
UI-then-environment-then-secrets precedence (environment does not override
the secrets file, and the UI value is not consulted). -/
theorem apiKey_secrets_beats_env_and_ui :
    resolveApiKey fullKeyEnv = some "sk-secrets" ∧
    apiKeyToUse 1 fullKeyEnv (some "sk-ui") = some "sk-secrets" ∧
    ("sk-secrets" : String) ≠ "sk-env" ∧ ("sk-secrets" : String) ≠ "sk-ui" := by
  refine ⟨rfl, rfl, by decide, by decide⟩

/-- C5 (amended): the key is resolved secrets file first, then the
environment (`API_KEY`, falling back to `OPENAI_API_KEY` when the former is
unset or empty); the sidebar/UI value is used only when the command-line
`--type` flag is not 1, and then exclusively. -/
theorem apiKey_resolution_amended (e : KeyEnv) (k : String)
    (hs : e.secrets = some k) :
    resolveApiKey e = some k ∧
    (∀ sb, apiKeyToUse 1 e sb = some k) ∧
    (∀ e2 : KeyEnv, e2.secrets = none →
      resolveApiKey e2 = pyOr e2.envAPI e2.envOPENAI) ∧
    (∀ t sb, t ≠ 1 → apiKeyToUse t e sb = sb) := by
  refine ⟨?_, ?_, ?_, ?_⟩
  · simp [resolveApiKey, hs]
  · intro sb; simp [apiKeyToUse, resolveApiKey, hs]
  · intro e2 h2; simp [resolveApiKey, h2]
  · intro t sb ht; simp [apiKeyToUse, ht]

/-- Witness for C5 (amended) at a concrete environment. -/
theorem apiKey_resolution_amended_witness :
    secretsKeyEnv.secrets = some "sk-a" ∧
    (resolveApiKey secretsKeyEnv = some "sk-a" ∧
      (∀ sb, apiKeyToUse 1 secretsKeyEnv sb = some "sk-a") ∧
      (∀ e2 : KeyEnv, e2.secrets = none →
        resolveApiKey e2 = pyOr e2.envAPI e2.envOPENAI) ∧
      (∀ t sb, t ≠ 1 → apiKeyToUse t secretsKeyEnv sb = sb)) :=
  ⟨rfl, apiKey_resolution_amended secretsKeyEnv "sk-a" rfl⟩

/-- C6: the OpenAI-compatible backend client is constructed with the base
URL normalized exactly as the spec describes — surrounding whitespace
stripped, every `@` removed, one `/` appended unless already present — and
with `max_tokens = 2000` and `temperature = 0.7` (seven tenths). -/
theorem openai_client_normalization (model_name : String) (key : Option String)
    (u : String) :
    mkOpenAIChat model_name key u =
      { id := model_name, api_key := key, base_url := normalizedUrlSpec u,
        max_tokens := 2000, temperature_tenths := 7 } := rfl

/-- C7: after a successful generation the stored dietary plan has exactly
the keys why_this_plan_works / meal_plan / important_considerations and the
fitness plan exactly goals / routine / tips, with the first and third values
the fixed boilerplate strings and the middle value the model content. -/
theorem generate_plan_shape (s : SessionState) (dc fc : String) :
    (generatePlans s (.returns (.content dc))
        (.returns (.content fc))).1.dietary_plan =
      [("why_this_plan_works", whyThisPlanWorksText), ("meal_plan", dc),
       ("important_considerations", importantConsiderationsText)] ∧
    ((generatePlans s (.returns (.content dc))
        (.returns (.content fc))).1.dietary_plan).map Prod.fst =
      ["why_this_plan_works", "meal_plan", "important_considerations"] ∧
    (generatePlans s (.returns (.content dc))
        (.returns (.content fc))).1.fitness_plan =
      [("goals", fitnessGoalsText), ("routine", fc),
       ("tips", fitnessTipsText)] ∧
    ((generatePlans s (.returns (.content dc))
        (.returns (.content fc))).1.fitness_plan).map Prod.fst =
      ["goals", "routine", "tips"] :=
  ⟨rfl, rfl, rfl, rfl⟩

/-- C8: two runs that differ only in the chosen provider, with equal model
name, key, URL, profile and model responses, render the same profile form
and store identical plan results; only the constructed backend client can
differ. -/
theorem provider_switch_frame (r1 r2 : GenRun) (s : SessionState)
    (_hname : r1.model_name = r2.model_name) (_hkey : r1.api_key = r2.api_key)
    (_hurl : r1.base_url = r2.base_url) (_hprof : r1.profile = r2.profile)
    (hd : r1.dietaryOutcome = r2.dietaryOutcome)
    (hf : r1.fitnessOutcome = r2.fitnessOutcome) :
    (runGeneration r1 s).1 = (runGeneration r2 s).1 ∧
    (runGeneration r1 s).2.2 = (runGeneration r2 s).2.2 := by
  refine ⟨rfl, ?_⟩
  simp only [runGeneration, hd, hf]

/-- Witness for C8: the Gemini and OpenAI runs agree on form and plans. -/
theorem provider_switch_frame_witness :
    geminiRun.model_name = openaiRun.model_name ∧
    geminiRun.api_key = openaiRun.api_key ∧
    geminiRun.base_url = openaiRun.base_url ∧
    geminiRun.profile = openaiRun.profile ∧
    geminiRun.dietaryOutcome = openaiRun.dietaryOutcome ∧
    geminiRun.fitnessOutcome = openaiRun.fitnessOutcome ∧
    ((runGeneration geminiRun initialState).1 =
        (runGeneration openaiRun initialState).1 ∧
      (runGeneration geminiRun initialState).2.2 =
        (runGeneration openaiRun initialState).2.2) :=
  ⟨rfl, rfl, rfl, rfl, rfl, rfl,
   provider_switch_frame geminiRun openaiRun initialState rfl rfl rfl rfl rfl rfl⟩

/-- C9: pressing the follow-up answer button with an empty question string
makes no model call and leaves the entire session state unchanged. -/
theorem followup_empty_question_noop (s : SessionState) (o : RunOutcome) :
    followUp s true "" o = (s, false, none) := by
  by_cases h : s.plans_generated <;> simp [followUp, h]

/-- C10: in the follow-up path a response lacking a `content` attribute
(a `None` response included) raises no exception — the pair
(question, fallback answer) is still appended — while the plan-generation
path errors out on the very same response. -/
theorem followup_missing_content_appends_fallback (s : SessionState)
    (q : String) (r : RunResponse) (hp : s.plans_generated = true)
    (hq : q ≠ "") (hr : respContent r = none) :
    followUp s true q (.returns r) =
      ({ s with qa_pairs := s.qa_pairs ++ [(q, followUpFallbackAnswer)] },
        true, none) ∧
    ∀ f, (generatePlans s (.returns r) f).2 = some dietaryFailMsg := by
  constructor
  · simp [followUp, hp, hq, hr]
  · intro f
    cases r with
    | null => rfl
    | noContent => rfl
    | content c => simp [respContent] at hr

/-- Witness for C10: a `None` response on a generated-plan state. -/
theorem followup_missing_content_appends_fallback_witness :
    sampleGeneratedState.plans_generated = true ∧
    ("蛋白质够吗？" : String) ≠ "" ∧
    respContent .null = none ∧
    (followUp sampleGeneratedState true "蛋白质够吗？" (.returns .null) =
      ({ sampleGeneratedState with
          qa_pairs := sampleGeneratedState.qa_pairs ++
            [("蛋白质够吗？", followUpFallbackAnswer)] }, true, none) ∧
      ∀ f, (generatePlans sampleGeneratedState (.returns .null) f).2 =
        some dietaryFailMsg) :=
  ⟨rfl, by decide, rfl,
   followup_missing_content_appends_fallback sampleGeneratedState "蛋白质够吗？"
     .null rfl (by decide) rfl⟩

end HealthAgent
